import Mathlib

/-!
Verification of the request lifecycle of `vllm/entrypoints/api_server.py`:
the `POST /generate` handler that pops `prompt` and `stream` from the JSON
body, builds sampling parameters from the remaining keys, submits to the
engine, and either streams NUL-delimited JSON chunks or blocks until the
engine sequence is exhausted and returns the last output.
-/

namespace ApiServer

/-- JSON values as decoded from a request body by `request.json()`.
Numbers are modelled as integers; no claim depends on fractional values. -/
inductive JsonVal where
  | str (s : String)
  | num (n : Int)
  | bool (b : Bool)
  | null
  | arr (elems : List JsonVal)
  | obj (fields : List (String × JsonVal))

/-- Python truthiness `bool(v)` of a JSON-decoded value. It is a total
function: coercion to boolean never raises for any JSON-decodable value. -/
def JsonVal.truthy : JsonVal → Bool
  | .str s => !(s == "")
  | .num n => !(n == 0)
  | .bool b => b
  | .null => false
  | .arr elems => !elems.isEmpty
  | .obj fields => !fields.isEmpty

/-- Python `bool(v)` is total on JSON-decoded values, so every value is
boolean-coercible; there is no value on which coercion fails. -/
def boolCoercible (v : JsonVal) : Bool :=
  (some v.truthy).isSome

/-- `request_dict.pop(k)`: the value stored at `k` together with the mapping
with that entry removed; `none` models Python's `KeyError`. The body decoded
from JSON has unique keys, so removing the first occurrence is `dict` removal. -/
def popKey (k : String) : List (String × JsonVal) → Option (JsonVal × List (String × JsonVal))
  | [] => none
  | (k', v) :: rest =>
    if k' = k then some (v, rest)
    else
      match popKey k rest with
      | none => none
      | some (v', rest') => some (v', (k', v) :: rest')

/-- `request_dict.pop("stream", False)`: the `stream` value (defaulting to
`False` when the key is absent) and the rest of the mapping. -/
def parseStream (kvs : List (String × JsonVal)) : JsonVal × List (String × JsonVal) :=
  match popKey "stream" kvs with
  | none => (.bool false, kvs)
  | some (v, rest) => (v, rest)

/-- One candidate completion inside a `RequestOutput`; the handler reads only
its cumulative `text` field. -/
structure CompletionOutput where
  text : String

/-- One element of the engine's produced sequence; the handler reads only
`prompt` and `outputs`. -/
structure RequestOutput where
  prompt : String
  outputs : List CompletionOutput

/-- Remaining request keys treated as sampling configuration. -/
abbrev SamplingKVs := List (String × JsonVal)

/-- Error taxonomy of the boundary layer. -/
inductive Err where
  | malformedRequest (field : String)
  | invalidSamplingConfig (msg : String)
  | emptyResult

/-- Modelled from the spec: the HTTP status class each boundary error is
surfaced with (taxonomy of the error-handling design); the web framework that
performs this mapping is not part of the shown source. `MalformedRequest` and
`InvalidSamplingConfig` are client errors (4xx); `EmptyResult` is treated as
an engine failure (5xx). -/
def errStatus : Err → Nat
  | .malformedRequest _ => 400
  | .invalidSamplingConfig _ => 400
  | .emptyResult => 500

/-- Calls the handler issues against the external engine, in order. -/
inductive EngineCall where
  | generateCall (prompt : JsonVal) (params : SamplingKVs) (request_id : String)
  | abortCall (request_id : String)

/-- The HTTP responses the handler can build: `JSONResponse(ret)`,
`Response(status_code=499)` (no body), and `StreamingResponse` carrying the
result source and the background cleanup tasks. -/
inductive HttpResponse where
  | json (status : Nat) (body : JsonVal)
  | empty (status : Nat)
  | streaming (source : List RequestOutput) (background : List EngineCall)

/-- `[prompt + output.text for output in request_output.outputs]`, with
`prompt = request_output.prompt` taken from the engine-reported element. -/
def textsOf (ro : RequestOutput) : List String :=
  ro.outputs.map (fun o => ro.prompt ++ o.text)

/-- The body `{"text": text_outputs}` of the final blocking response. -/
def payloadJson (ro : RequestOutput) : JsonVal :=
  .obj [("text", .arr ((textsOf ro).map .str))]

/-- Lower-case hexadecimal digit, as produced by Python string formatting. -/
def hexDig (n : Nat) : Char :=
  if n < 10 then Char.ofNat (48 + n) else Char.ofNat (87 + n)

/-- A `\uXXXX` escape of a code unit, as emitted by `json.dumps`. -/
def uEsc (n : Nat) : String :=
  String.mk ['\\', 'u', hexDig (n / 4096 % 16), hexDig (n / 256 % 16),
    hexDig (n / 16 % 16), hexDig (n % 16)]

/-- `json.dumps` escaping of one character with the default `ensure_ascii`:
printable ASCII other than quote and backslash is literal, the short escapes
cover the usual control characters, every other character becomes `\uXXXX`
(a surrogate pair beyond the basic plane). -/
def escChar (c : Char) : String :=
  if c = '"' then "\\\""
  else if c = '\\' then "\\\\"
  else if c = Char.ofNat 10 then "\\n"
  else if c = Char.ofNat 13 then "\\r"
  else if c = Char.ofNat 9 then "\\t"
  else if c = Char.ofNat 8 then "\\b"
  else if c = Char.ofNat 12 then "\\f"
  else if 32 ≤ c.toNat ∧ c.toNat ≤ 126 then String.singleton c
  else if c.toNat < 65536 then uEsc c.toNat
  else uEsc (55296 + (c.toNat - 65536) / 1024) ++ uEsc (56320 + (c.toNat - 65536) % 1024)

/-- `json.dumps` of a string value. -/
def jsonString (s : String) : String :=
  "\"" ++ String.join (s.toList.map escChar) ++ "\""

/-- `json.dumps({"text": texts})` with the default separators. -/
def dumpsPayload (texts : List String) : String :=
  "\x7b\"text\": [" ++ String.intercalate ", " (texts.map jsonString) ++ "]\x7d"

/-- One streamed chunk: `json.dumps(ret) + "\0"`, the serialized payload
followed by the single NUL delimiter. -/
def chunkOf (ro : RequestOutput) : String :=
  dumpsPayload (textsOf ro) ++ "\x00"

/-- The `stream_results` generator: one chunk per `RequestOutput` received
from the results generator, in arrival order. -/
def stream_results (received : List RequestOutput) : List String :=
  received.map chunkOf

/-- The chunks actually delivered when the transport consumes `n` elements of
the source before closing (completion or cancellation). -/
def chunksSent (source : List RequestOutput) (n : Nat) : List String :=
  stream_results (source.take n)

/-- The `abort_request` cleanup task: `await self.engine.abort(request_id)`. -/
def abort_request (request_id : String) : List EngineCall :=
  [.abortCall request_id]

/-- Modelled from the spec: the transport runs a streaming response's
background tasks when it closes for any reason (normal completion, client
abort, or server-side error); the framework machinery that runs
`BackgroundTasks` is not part of the shown source. -/
def closeTransport : HttpResponse → List EngineCall
  | .streaming _ background => background
  | _ => []

/-- The non-streaming consumption loop: for each `request_output` pulled from
the generator it polls `request.is_disconnected()` (poll `i` for the `i`-th
pulled element), aborting with a bodyless 499 on disconnect, otherwise
retaining the element in `final_output`; on exhaustion the `assert` turns an
absent `final_output` into `EmptyResult`, else `JSONResponse(ret)`. -/
def blockingLoop (request_id : String) (dis : Nat → Bool) :
    List RequestOutput → Nat → Option RequestOutput →
      Except Err HttpResponse × List EngineCall
  | [], _, none => (.error .emptyResult, [])
  | [], _, some fo => (.ok (.json 200 (payloadJson fo)), [])
  | ro :: rest, i, _ =>
    if dis i then (.ok (.empty 499), abort_request request_id)
    else blockingLoop request_id dis rest (i + 1) (some ro)

/-- The last element of `l` if any, else `acc`: the value `final_output`
holds after the loop. -/
def lastOr (acc : Option RequestOutput) : List RequestOutput → Option RequestOutput
  | [] => acc
  | ro :: rest => lastOr (some ro) rest

/-- What the loop does at exhaustion: the `assert final_output is not None`
turns `none` into `EmptyResult`, otherwise `JSONResponse(ret)` is built from
the retained element. -/
def finishBlocking : Option RequestOutput → Except Err HttpResponse × List EngineCall
  | none => (.error .emptyResult, [])
  | some fo => (.ok (.json 200 (payloadJson fo)), [])

/-- Outcome of the handler: the response (or boundary error) together with
the engine calls issued, in order. -/
structure HandlerResult where
  response : Except Err HttpResponse
  engineCalls : List EngineCall

/-- The `generate` endpoint handler. `validate` models `SamplingParams(**kw)`
construction (engine-owned validation, not part of the shown source);
`engineResults` is the sequence the engine produces for this request;
`request_id` is the fresh uuid; `dis i` is the result of the `i`-th
`request.is_disconnected()` poll; `body` is the decoded JSON body. -/
def generate (validate : SamplingKVs → Except Err SamplingKVs)
    (engineResults : List RequestOutput) (request_id : String)
    (dis : Nat → Bool) (body : List (String × JsonVal)) : HandlerResult :=
  match popKey "prompt" body with
  | none => ⟨.error (.malformedRequest "prompt"), []⟩
  | some (promptVal, rest1) =>
    let sv := parseStream rest1
    match validate sv.2 with
    | .error e => ⟨.error e, []⟩
    | .ok sampling_params =>
      let submit := EngineCall.generateCall promptVal sampling_params request_id
      if sv.1.truthy then
        ⟨.ok (.streaming engineResults (abort_request request_id)), [submit]⟩
      else
        let r := blockingLoop request_id dis engineResults 0 none
        ⟨r.1, submit :: r.2⟩

/-- Modelled from the spec: the session state machine — `Admitted`,
`Streaming/Accumulating`, and the terminal states `Completed`, `Cancelled`,
`Failed`; the engine-side session bookkeeping is not part of the shown
source. -/
inductive SessionState where
  | admitted
  | consuming
  | completed
  | cancelled
  | failed

/-- Terminal session states. -/
def SessionState.isTerminal : SessionState → Bool
  | .completed => true
  | .cancelled => true
  | .failed => true
  | _ => false

/-- Modelled from the spec: `cancel(session)` marks a non-terminal session
cancelled and is accepted as a no-op on a terminal one; it is a total
function, so it never raises. -/
def cancelSession : SessionState → SessionState
  | .completed => .completed
  | .failed => .failed
  | _ => .cancelled

/-- Modelled from the spec: the engine's `abort(id)` removes `id` from the
set of active request ids and fails silently (a no-op) when `id` is unknown
or already finished. -/
def engineAbort (active : List String) (request_id : String) : List String :=
  active.filter (fun a => !(a == request_id))

/-- `lastOr` agrees with `getLast?` on a non-empty list. -/
theorem lastOr_eq_getLast? (l : List RequestOutput) (acc : Option RequestOutput)
    (h : l ≠ []) : lastOr acc l = l.getLast? := by
  induction l generalizing acc with
  | nil => exact absurd rfl h
  | cons ro rest ih =>
    cases rest with
    | nil => rfl
    | cons r rs =>
      rw [lastOr, ih (some ro) (by simp), List.getLast?_cons_cons]

/-- If no disconnect poll fires while the remaining elements are consumed,
the loop runs to exhaustion and finishes from the retained element. -/
theorem blockingLoop_no_dis (request_id : String) (dis : Nat → Bool)
    (l : List RequestOutput) (start : Nat) (acc : Option RequestOutput)
    (h : ∀ j, j < l.length → dis (start + j) = false) :
    blockingLoop request_id dis l start acc = finishBlocking (lastOr acc l) := by
  induction l generalizing start acc with
  | nil => cases acc <;> rfl
  | cons ro rest ih =>
    have h0 : dis start = false := by simpa using h 0 (by simp)
    rw [blockingLoop, h0]
    simp only [Bool.false_eq_true, if_false]
    rw [lastOr]
    exact ih (start + 1) (some ro) (fun j hj => by
      have := h (j + 1) (by simpa using Nat.succ_lt_succ hj)
      simpa [Nat.add_assoc, Nat.add_comm 1 j] using this)

/-- If some disconnect poll fires within the remaining elements, the loop
aborts the request and returns the bodyless 499 response. -/
theorem blockingLoop_dis (request_id : String) (dis : Nat → Bool)
    (l : List RequestOutput) (start : Nat) (acc : Option RequestOutput)
    (j : Nat) (hj : j < l.length) (hd : dis (start + j) = true) :
    blockingLoop request_id dis l start acc
      = (.ok (.empty 499), abort_request request_id) := by
  induction l generalizing start acc j with
  | nil => simp at hj
  | cons ro rest ih =>
    by_cases h0 : dis start = true
    · rw [blockingLoop, h0]
      simp
    · have hne : dis start = false := by simpa using h0
      rw [blockingLoop, hne]
      simp only [Bool.false_eq_true, if_false]
      cases j with
      | zero => rw [Nat.add_zero] at hd; exact absurd hd h0
      | succ j' =>
        exact ih (start + 1) (some ro) j' (by simpa using Nat.lt_of_succ_lt_succ hj)
          (by simpa [Nat.add_assoc, Nat.add_comm 1 j'] using hd)

/-- `pop` removes only the entry for its own key: the mapping it returns
agrees with the original on every other key. -/
theorem popKey_filter (k : String) (kvs : List (String × JsonVal)) :
    ∀ (rest : List (String × JsonVal)) (v : JsonVal),
      popKey k kvs = some (v, rest) → ∀ p : String, p ≠ k →
      rest.filter (fun e => e.1 == p) = kvs.filter (fun e => e.1 == p) := by
  induction kvs with
  | nil => intro rest v h; simp [popKey] at h
  | cons kv tl ih =>
    obtain ⟨k', v'⟩ := kv
    intro rest v h p hp
    rw [popKey] at h
    by_cases hk : k' = k
    · rw [if_pos hk] at h
      simp only [Option.some.injEq, Prod.mk.injEq] at h
      obtain ⟨hv, hrest⟩ := h
      subst hrest
      have hne : (k' == p) = false := by
        rw [hk, beq_eq_false_iff_ne]
        exact fun hkp => hp hkp.symm
      simp [List.filter_cons, hne]
    · rw [if_neg hk] at h
      cases htl : popKey k tl with
      | none => rw [htl] at h; simp at h
      | some pr =>
        obtain ⟨v2, rest2⟩ := pr
        rw [htl] at h
        simp only [Option.some.injEq, Prod.mk.injEq] at h
        obtain ⟨hv, hrest⟩ := h
        subst hrest
        simp only [List.filter_cons]
        rw [ih rest2 v (htl.trans (by rw [hv])) p hp]

/-- Unfolding of the handler once the `prompt` pop has succeeded. -/
theorem generate_eq_some (validate : SamplingKVs → Except Err SamplingKVs)
    (engineResults : List RequestOutput) (request_id : String)
    (dis : Nat → Bool) (body : List (String × JsonVal))
    (promptVal : JsonVal) (rest1 : List (String × JsonVal))
    (hp : popKey "prompt" body = some (promptVal, rest1)) :
    generate validate engineResults request_id dis body
      = match validate (parseStream rest1).2 with
        | .error e => ⟨.error e, []⟩
        | .ok sampling_params =>
          if (parseStream rest1).1.truthy then
            ⟨.ok (.streaming engineResults (abort_request request_id)),
              [.generateCall promptVal sampling_params request_id]⟩
          else
            ⟨(blockingLoop request_id dis engineResults 0 none).1,
              .generateCall promptVal sampling_params request_id
                :: (blockingLoop request_id dis engineResults 0 none).2⟩ := by
  unfold generate
  rw [hp]

/-- Unfolding of the handler when sampling validation rejects the remaining
keys: the error is surfaced and no engine call is made. -/
theorem generate_eq_err (validate : SamplingKVs → Except Err SamplingKVs)
    (engineResults : List RequestOutput) (request_id : String)
    (dis : Nat → Bool) (body : List (String × JsonVal))
    (promptVal : JsonVal) (rest1 : List (String × JsonVal)) (e : Err)
    (hp : popKey "prompt" body = some (promptVal, rest1))
    (hv : validate (parseStream rest1).2 = .error e) :
    generate validate engineResults request_id dis body = ⟨.error e, []⟩ := by
  rw [generate_eq_some validate engineResults request_id dis body promptVal rest1 hp, hv]

/-- Unfolding of the handler on the non-streaming branch. -/
theorem generate_blocking (validate : SamplingKVs → Except Err SamplingKVs)
    (engineResults : List RequestOutput) (request_id : String)
    (dis : Nat → Bool) (body : List (String × JsonVal))
    (promptVal : JsonVal) (rest1 sampling_params : SamplingKVs)
    (hp : popKey "prompt" body = some (promptVal, rest1))
    (hv : validate (parseStream rest1).2 = .ok sampling_params)
    (hs : (parseStream rest1).1.truthy = false) :
    generate validate engineResults request_id dis body
      = ⟨(blockingLoop request_id dis engineResults 0 none).1,
          .generateCall promptVal sampling_params request_id
            :: (blockingLoop request_id dis engineResults 0 none).2⟩ := by
  rw [generate_eq_some validate engineResults request_id dis body promptVal rest1 hp, hv]
  exact if_neg (show ¬ (parseStream rest1).1.truthy = true by simp [hs])

/-- Unfolding of the handler on the streaming branch. -/
theorem generate_streaming (validate : SamplingKVs → Except Err SamplingKVs)
    (engineResults : List RequestOutput) (request_id : String)
    (dis : Nat → Bool) (body : List (String × JsonVal))
    (promptVal : JsonVal) (rest1 sampling_params : SamplingKVs)
    (hp : popKey "prompt" body = some (promptVal, rest1))
    (hv : validate (parseStream rest1).2 = .ok sampling_params)
    (hs : (parseStream rest1).1.truthy = true) :
    generate validate engineResults request_id dis body
      = ⟨.ok (.streaming engineResults (abort_request request_id)),
          [.generateCall promptVal sampling_params request_id]⟩ := by
  rw [generate_eq_some validate engineResults request_id dis body promptVal rest1 hp, hv]
  exact if_pos hs

/-- C1: for a valid non-streaming request whose engine sequence yields at
least one element and whose transport never reports disconnection, the
handler returns a 200 JSON response whose `text` field is
`[prompt + o.text for o in lastElement.outputs]` built from the final element
of the engine's sequence, and the response equals the one produced when only
that final element exists — earlier elements are discarded and do not affect
the response. -/
theorem C1_blocking_returns_last
    (validate : SamplingKVs → Except Err SamplingKVs)
    (engineResults : List RequestOutput) (request_id : String) (dis : Nat → Bool)
    (body : List (String × JsonVal)) (promptVal : JsonVal)
    (rest1 sampling_params : SamplingKVs) (last : RequestOutput)
    (hp : popKey "prompt" body = some (promptVal, rest1))
    (hs : (parseStream rest1).1.truthy = false)
    (hv : validate (parseStream rest1).2 = .ok sampling_params)
    (hlast : engineResults.getLast? = some last)
    (hconn : ∀ i, i < engineResults.length → dis i = false) :
    (generate validate engineResults request_id dis body).response
      = .ok (.json 200 (payloadJson last))
    ∧ (generate validate engineResults request_id dis body).response
      = (generate validate [last] request_id dis body).response := by
  have hne : engineResults ≠ [] := by
    intro h; rw [h] at hlast; simp at hlast
  have hpos : (0:Nat) < engineResults.length := by
    cases engineResults with
    | nil => exact absurd rfl hne
    | cons a l => simp
  have hloop : blockingLoop request_id dis engineResults 0 none
      = finishBlocking (some last) := by
    rw [blockingLoop_no_dis request_id dis engineResults 0 none
      (fun j hj => by simpa using hconn j hj)]
    rw [lastOr_eq_getLast? engineResults none hne, hlast]
  have hloop1 : blockingLoop request_id dis [last] 0 none
      = finishBlocking (some last) := by
    rw [blockingLoop_no_dis request_id dis [last] 0 none
      (fun j hj => by
        have hj0 : j = 0 := Nat.lt_one_iff.mp (by simpa using hj)
        subst hj0
        simpa using hconn 0 hpos)]
    rfl
  constructor
  · rw [generate_blocking validate engineResults request_id dis body promptVal rest1
      sampling_params hp hv hs, hloop]
    rfl
  · rw [generate_blocking validate engineResults request_id dis body promptVal rest1
      sampling_params hp hv hs,
      generate_blocking validate [last] request_id dis body promptVal rest1
      sampling_params hp hv hs, hloop, hloop1]

/-- C1 witness: a two-element engine sequence; the response is built from the
second (final) element only. -/
theorem C1_blocking_returns_last_w :
    (generate (fun kvs => .ok kvs)
        [⟨"Hello", [⟨" wo"⟩]⟩, ⟨"Hello", [⟨" world"⟩]⟩] "req-0" (fun _ => false)
        [("prompt", .str "Hello"), ("stream", .bool false), ("temperature", .num 0)]).response
      = .ok (.json 200 (payloadJson ⟨"Hello", [⟨" world"⟩]⟩)) :=
  (C1_blocking_returns_last (fun kvs => .ok kvs)
    [⟨"Hello", [⟨" wo"⟩]⟩, ⟨"Hello", [⟨" world"⟩]⟩] "req-0" (fun _ => false)
    [("prompt", .str "Hello"), ("stream", .bool false), ("temperature", .num 0)]
    (.str "Hello") [("stream", .bool false), ("temperature", .num 0)]
    [("temperature", .num 0)] ⟨"Hello", [⟨" world"⟩]⟩
    rfl rfl rfl rfl (fun _ _ => rfl)).1

/-- C3: in non-streaming mode, if the transport reports disconnected at some
poll during consumption, the handler calls the engine abort with the
session's request id and returns the bodyless 499 response; the engine calls
are exactly the submission followed by the abort, and no JSON body is
produced. -/
theorem C3_disconnect_499
    (validate : SamplingKVs → Except Err SamplingKVs)
    (engineResults : List RequestOutput) (request_id : String) (dis : Nat → Bool)
    (body : List (String × JsonVal)) (promptVal : JsonVal)
    (rest1 sampling_params : SamplingKVs) (j : Nat)
    (hp : popKey "prompt" body = some (promptVal, rest1))
    (hs : (parseStream rest1).1.truthy = false)
    (hv : validate (parseStream rest1).2 = .ok sampling_params)
    (hj : j < engineResults.length)
    (hd : dis j = true) :
    (generate validate engineResults request_id dis body).response
      = .ok (.empty 499)
    ∧ (generate validate engineResults request_id dis body).engineCalls
      = [.generateCall promptVal sampling_params request_id, .abortCall request_id] := by
  have hloop := blockingLoop_dis request_id dis engineResults 0 none j hj
    (by simpa using hd)
  rw [generate_blocking validate engineResults request_id dis body promptVal rest1
    sampling_params hp hv hs, hloop]
  exact ⟨rfl, rfl⟩

/-- C3 witness: a disconnect reported at the first poll yields the 499
response and the abort call. -/
theorem C3_disconnect_499_w :
    (generate (fun kvs => .ok kvs) [⟨"Hi", [⟨" there"⟩]⟩] "req-1" (fun _ => true)
        [("prompt", .str "Hi")]).response = .ok (.empty 499)
    ∧ (generate (fun kvs => .ok kvs) [⟨"Hi", [⟨" there"⟩]⟩] "req-1" (fun _ => true)
        [("prompt", .str "Hi")]).engineCalls
      = [.generateCall (.str "Hi") [] "req-1", .abortCall "req-1"] :=
  C3_disconnect_499 (fun kvs => .ok kvs) [⟨"Hi", [⟨" there"⟩]⟩] "req-1"
    (fun _ => true) [("prompt", .str "Hi")] (.str "Hi") [] [] 0
    rfl rfl rfl (by simp) rfl

/-- C6: in non-streaming mode, when the engine's sequence yields zero
elements (and hence no disconnect poll ever fires), the handler fails with
`EmptyResult` — surfaced as an engine failure (5xx) — instead of returning a
normal success response. -/
theorem C6_empty_result
    (validate : SamplingKVs → Except Err SamplingKVs)
    (request_id : String) (dis : Nat → Bool)
    (body : List (String × JsonVal)) (promptVal : JsonVal)
    (rest1 sampling_params : SamplingKVs)
    (hp : popKey "prompt" body = some (promptVal, rest1))
    (hs : (parseStream rest1).1.truthy = false)
    (hv : validate (parseStream rest1).2 = .ok sampling_params) :
    generate validate [] request_id dis body
      = ⟨.error .emptyResult, [.generateCall promptVal sampling_params request_id]⟩
    ∧ errStatus .emptyResult = 500 := by
  refine ⟨?_, rfl⟩
  rw [generate_blocking validate [] request_id dis body promptVal rest1
    sampling_params hp hv hs]
  rfl

/-- C6 witness: an empty engine sequence produces the `EmptyResult` error. -/
theorem C6_empty_result_w :
    generate (fun kvs => .ok kvs) [] "req-2" (fun _ => false)
        [("prompt", .str "Hey")]
      = ⟨.error .emptyResult, [.generateCall (.str "Hey") [] "req-2"]⟩ :=
  (C6_empty_result (fun kvs => .ok kvs) "req-2" (fun _ => false)
    [("prompt", .str "Hey")] (.str "Hey") [] [] rfl rfl rfl).1

/-- Filtering twice with the same predicate filters once. -/
theorem filter_self_idem {α : Type} (p : α → Bool) (l : List α) :
    (l.filter p).filter p = l.filter p := by
  induction l with
  | nil => rfl
  | cons a tl ih =>
    by_cases h : p a = true
    · simp [List.filter_cons, h, ih]
    · simp [List.filter_cons, h, ih]

/-- C2: for a valid streaming request the handler returns the streaming
response over the engine's sequence; when the transport consumes `n` elements
before completion or cancellation, exactly one chunk is emitted per consumed
`RequestOutput`, in the order the engine produced them, and every chunk is
the JSON serialization of the `text` payload followed by the single NUL
delimiter. -/
theorem C2_streaming_chunks
    (validate : SamplingKVs → Except Err SamplingKVs)
    (engineResults : List RequestOutput) (request_id : String) (dis : Nat → Bool)
    (body : List (String × JsonVal)) (promptVal : JsonVal)
    (rest1 sampling_params : SamplingKVs)
    (hp : popKey "prompt" body = some (promptVal, rest1))
    (hv : validate (parseStream rest1).2 = .ok sampling_params)
    (hs : (parseStream rest1).1.truthy = true) :
    (generate validate engineResults request_id dis body).response
      = .ok (.streaming engineResults (abort_request request_id))
    ∧ (∀ n, chunksSent engineResults n = (engineResults.take n).map chunkOf)
    ∧ (∀ n, (chunksSent engineResults n).length = min n engineResults.length)
    ∧ (∀ i : Nat, (stream_results engineResults)[i]? = (engineResults[i]?).map chunkOf)
    ∧ (∀ ro : RequestOutput, chunkOf ro
        = dumpsPayload (ro.outputs.map (fun o => ro.prompt ++ o.text)) ++ "\x00") := by
  refine ⟨?_, fun n => rfl, fun n => ?_, fun i => ?_, fun ro => rfl⟩
  · rw [generate_streaming validate engineResults request_id dis body promptVal rest1
      sampling_params hp hv hs]
  · simp [chunksSent, stream_results]
  · simp [stream_results, List.getElem?_map]

/-- C2 witness: two engine elements streamed as two NUL-terminated chunks. -/
theorem C2_streaming_chunks_w :
    (generate (fun kvs => .ok kvs) [⟨"Hi", [⟨" a"⟩]⟩, ⟨"Hi", [⟨" ab"⟩]⟩] "req-5"
        (fun _ => false) [("prompt", .str "Hi"), ("stream", .bool true)]).response
      = .ok (.streaming [⟨"Hi", [⟨" a"⟩]⟩, ⟨"Hi", [⟨" ab"⟩]⟩] (abort_request "req-5")) :=
  (C2_streaming_chunks (fun kvs => .ok kvs) [⟨"Hi", [⟨" a"⟩]⟩, ⟨"Hi", [⟨" ab"⟩]⟩]
    "req-5" (fun _ => false) [("prompt", .str "Hi"), ("stream", .bool true)]
    (.str "Hi") [("stream", .bool true)] [] rfl rfl rfl).1

/-- C4 counterexample: a request whose `prompt` is present but not a string
(here the number 5) is not rejected before submission — the handler issues
the engine generate call with that non-string value. -/
theorem C4_counterexample :
    (generate (fun kvs => .ok kvs) [] "req-3" (fun _ => false)
        [("prompt", .num 5)]).engineCalls
      = [.generateCall (.num 5) [] "req-3"]
    ∧ (generate (fun kvs => .ok kvs) [] "req-3" (fun _ => false)
        [("prompt", .num 5)]).engineCalls ≠ [] := by
  refine ⟨rfl, fun h => ?_⟩
  rw [show (generate (fun kvs => .ok kvs) [] "req-3" (fun _ => false)
      [("prompt", .num 5)]).engineCalls
    = [EngineCall.generateCall (.num 5) [] "req-3"] from rfl] at h
  exact absurd h (List.cons_ne_nil _ _)

/-- C4 (amended): a request whose body lacks the `prompt` key fails with
`MalformedRequest` and the engine is never called; a `prompt` value that is
present but not a string is not rejected by this layer — whatever value was
popped is passed as the prompt of the engine generate call. -/
theorem C4_prompt_handling
    (validate : SamplingKVs → Except Err SamplingKVs)
    (engineResults : List RequestOutput) (request_id : String) (dis : Nat → Bool)
    (body : List (String × JsonVal)) :
    (popKey "prompt" body = none →
      generate validate engineResults request_id dis body
        = ⟨.error (.malformedRequest "prompt"), []⟩)
    ∧ (∀ promptVal rest1 sampling_params,
        popKey "prompt" body = some (promptVal, rest1) →
        validate (parseStream rest1).2 = .ok sampling_params →
        (generate validate engineResults request_id dis body).engineCalls.head?
          = some (.generateCall promptVal sampling_params request_id)) := by
  constructor
  · intro h
    unfold generate
    rw [h]
  · intro promptVal rest1 sampling_params hp hv
    by_cases hs : (parseStream rest1).1.truthy = true
    · rw [generate_streaming validate engineResults request_id dis body promptVal rest1
        sampling_params hp hv hs]
      rfl
    · rw [generate_blocking validate engineResults request_id dis body promptVal rest1
        sampling_params hp hv (by simpa using hs)]
      rfl

/-- C4 witness: the missing-prompt request is rejected with no engine call;
a numeric prompt is forwarded to the engine. -/
theorem C4_prompt_handling_w :
    generate (fun kvs => .ok kvs) [] "req-6" (fun _ => false) [("stream", .bool true)]
      = ⟨.error (.malformedRequest "prompt"), []⟩
    ∧ (generate (fun kvs => .ok kvs) [] "req-6" (fun _ => false)
        [("prompt", .num 7)]).engineCalls.head?
      = some (.generateCall (.num 7) [] "req-6") :=
  ⟨(C4_prompt_handling (fun kvs => .ok kvs) [] "req-6" (fun _ => false)
      [("stream", .bool true)]).1 rfl,
    (C4_prompt_handling (fun kvs => .ok kvs) [] "req-6" (fun _ => false)
      [("prompt", .num 7)]).2 (.num 7) [] [] rfl rfl⟩

/-- C5: for a streaming request the handler registers the engine abort for
the request's id as the response's background cleanup, the transport runs it
when the response closes for any reason, and a transport that closes after
consuming `n` elements has received at most `n` chunks — none after the
disconnect. -/
theorem C5_stream_abort_hook
    (validate : SamplingKVs → Except Err SamplingKVs)
    (engineResults : List RequestOutput) (request_id : String) (dis : Nat → Bool)
    (body : List (String × JsonVal)) (promptVal : JsonVal)
    (rest1 sampling_params : SamplingKVs)
    (hp : popKey "prompt" body = some (promptVal, rest1))
    (hv : validate (parseStream rest1).2 = .ok sampling_params)
    (hs : (parseStream rest1).1.truthy = true) :
    (generate validate engineResults request_id dis body).response
      = .ok (.streaming engineResults (abort_request request_id))
    ∧ closeTransport (.streaming engineResults (abort_request request_id))
      = [.abortCall request_id]
    ∧ (∀ n, (chunksSent engineResults n).length ≤ n) := by
  refine ⟨?_, rfl, fun n => ?_⟩
  · rw [generate_streaming validate engineResults request_id dis body promptVal rest1
      sampling_params hp hv hs]
  · have hlen : (chunksSent engineResults n).length = min n engineResults.length := by
      simp [chunksSent, stream_results]
    rw [hlen]
    exact Nat.min_le_left _ _

/-- C5 witness: Scenario C shape — the client closes after one chunk of a
three-element stream: at most one chunk was delivered and the abort with the
request's id is the registered cleanup. -/
theorem C5_stream_abort_hook_w :
    (generate (fun kvs => .ok kvs)
        [⟨"P", [⟨"a"⟩]⟩, ⟨"P", [⟨"ab"⟩]⟩, ⟨"P", [⟨"abc"⟩]⟩] "req-7" (fun _ => false)
        [("prompt", .str "P"), ("stream", .bool true)]).response
      = .ok (.streaming [⟨"P", [⟨"a"⟩]⟩, ⟨"P", [⟨"ab"⟩]⟩, ⟨"P", [⟨"abc"⟩]⟩]
          (abort_request "req-7"))
    ∧ closeTransport (.streaming [⟨"P", [⟨"a"⟩]⟩, ⟨"P", [⟨"ab"⟩]⟩, ⟨"P", [⟨"abc"⟩]⟩]
          (abort_request "req-7"))
      = [.abortCall "req-7"]
    ∧ (chunksSent [⟨"P", [⟨"a"⟩]⟩, ⟨"P", [⟨"ab"⟩]⟩, ⟨"P", [⟨"abc"⟩]⟩] 1).length ≤ 1 := by
  obtain ⟨h1, h2, h3⟩ := C5_stream_abort_hook (fun kvs => .ok kvs)
    [⟨"P", [⟨"a"⟩]⟩, ⟨"P", [⟨"ab"⟩]⟩, ⟨"P", [⟨"abc"⟩]⟩] "req-7" (fun _ => false)
    [("prompt", .str "P"), ("stream", .bool true)] (.str "P") [("stream", .bool true)]
    [] rfl rfl rfl
  exact ⟨h1, h2, h3 1⟩

/-- C7: after popping exactly `prompt` and `stream`, the remaining keys reach
sampling-parameter construction unchanged (the mapping seen by validation
agrees with the body on every other key); if validation rejects them, the
handler surfaces `InvalidSamplingConfig` verbatim — a 4xx class error — and
issues no engine call. -/
theorem C7_sampling_rejection
    (validate : SamplingKVs → Except Err SamplingKVs)
    (engineResults : List RequestOutput) (request_id : String) (dis : Nat → Bool)
    (body : List (String × JsonVal)) (promptVal : JsonVal)
    (rest1 : List (String × JsonVal)) (msg : String)
    (hp : popKey "prompt" body = some (promptVal, rest1))
    (hv : validate (parseStream rest1).2 = .error (.invalidSamplingConfig msg)) :
    generate validate engineResults request_id dis body
      = ⟨.error (.invalidSamplingConfig msg), []⟩
    ∧ 400 ≤ errStatus (.invalidSamplingConfig msg)
    ∧ errStatus (.invalidSamplingConfig msg) < 500
    ∧ (∀ p, p ≠ "prompt" → p ≠ "stream" →
        (parseStream rest1).2.filter (fun e => e.1 == p)
          = body.filter (fun e => e.1 == p)) := by
  refine ⟨generate_eq_err validate engineResults request_id dis body promptVal rest1 _ hp hv,
    by simp [errStatus], by simp [errStatus], ?_⟩
  intro p hpp hps
  have h1 := popKey_filter "prompt" body rest1 promptVal hp p hpp
  unfold parseStream
  cases hstream : popKey "stream" rest1 with
  | none => simpa using h1
  | some pr =>
    obtain ⟨v, rest2⟩ := pr
    have h2 := popKey_filter "stream" rest1 rest2 v hstream p hps
    simpa using h2.trans h1

/-- C7 witness: a rejected sampling option is surfaced with no engine call,
and the key not popped is seen by validation exactly as sent. -/
theorem C7_sampling_rejection_w :
    generate (fun _ => .error (.invalidSamplingConfig "bad temperature"))
        [] "req-8" (fun _ => false)
        [("prompt", .str "P"), ("temperature", .num 9)]
      = ⟨.error (.invalidSamplingConfig "bad temperature"), []⟩
    ∧ (parseStream [("temperature", JsonVal.num 9)]).2.filter
          (fun e => e.1 == "temperature")
      = [("prompt", JsonVal.str "P"), ("temperature", JsonVal.num 9)].filter
          (fun e => e.1 == "temperature") := by
  obtain ⟨h1, _, _, h4⟩ := C7_sampling_rejection
    (fun _ => .error (.invalidSamplingConfig "bad temperature")) [] "req-8"
    (fun _ => false) [("prompt", .str "P"), ("temperature", .num 9)] (.str "P")
    [("temperature", .num 9)] "bad temperature" rfl rfl
  exact ⟨h1, h4 "temperature" (by decide) (by decide)⟩

/-- C8: `stream` defaults to `false` when absent — the handler then takes the
non-streaming branch — and every JSON-decodable value is boolean-coercible
(Python truthiness is total), so the `MalformedRequest` branch for a
non-coercible `stream` value is never taken. -/
theorem C8_stream_default
    (validate : SamplingKVs → Except Err SamplingKVs)
    (engineResults : List RequestOutput) (request_id : String) (dis : Nat → Bool)
    (body : List (String × JsonVal)) (promptVal : JsonVal)
    (rest1 sampling_params : SamplingKVs)
    (hp : popKey "prompt" body = some (promptVal, rest1)) :
    (popKey "stream" rest1 = none → parseStream rest1 = (.bool false, rest1))
    ∧ (∀ v : JsonVal, boolCoercible v = true)
    ∧ (popKey "stream" rest1 = none → validate rest1 = .ok sampling_params →
        generate validate engineResults request_id dis body
          = ⟨(blockingLoop request_id dis engineResults 0 none).1,
              .generateCall promptVal sampling_params request_id
                :: (blockingLoop request_id dis engineResults 0 none).2⟩) := by
  refine ⟨?_, fun v => rfl, ?_⟩
  · intro h
    unfold parseStream
    rw [h]
  · intro h hv
    have hps : parseStream rest1 = (.bool false, rest1) := by
      unfold parseStream
      rw [h]
    exact generate_blocking validate engineResults request_id dis body promptVal rest1
      sampling_params hp (by rw [hps]; exact hv) (by rw [hps]; rfl)

/-- C8 witness: a body with no `stream` key parses to `stream=false` and the
handler takes the non-streaming branch; a string value is coercible. -/
theorem C8_stream_default_w :
    parseStream [("n", JsonVal.num 1)] = (.bool false, [("n", JsonVal.num 1)])
    ∧ boolCoercible (.str "yes") = true
    ∧ generate (fun kvs => .ok kvs) [⟨"P", [⟨"x"⟩]⟩] "req-9" (fun _ => false)
        [("prompt", .str "P"), ("n", .num 1)]
      = ⟨(blockingLoop "req-9" (fun _ => false) [⟨"P", [⟨"x"⟩]⟩] 0 none).1,
          .generateCall (.str "P") [("n", .num 1)] "req-9"
            :: (blockingLoop "req-9" (fun _ => false) [⟨"P", [⟨"x"⟩]⟩] 0 none).2⟩ := by
  obtain ⟨h1, h2, h3⟩ := C8_stream_default (fun kvs => .ok kvs) [⟨"P", [⟨"x"⟩]⟩]
    "req-9" (fun _ => false) [("prompt", .str "P"), ("n", .num 1)] (.str "P")
    [("n", .num 1)] [("n", .num 1)] rfl
  exact ⟨h1 rfl, h2 _, h3 rfl rfl⟩

/-- C9: cancellation is idempotent — cancelling twice equals cancelling once,
cancelling an already-terminal session (including one that completed
naturally) is a no-op that leaves it terminal, and the engine-side abort of a
request id is likewise idempotent and silently ignores unknown ids; all the
operations are total functions, so they never raise. -/
theorem C9_cancel_idempotent (s : SessionState) (active : List String)
    (request_id : String) :
    cancelSession (cancelSession s) = cancelSession s
    ∧ (s.isTerminal = true → cancelSession s = s)
    ∧ (cancelSession s).isTerminal = true
    ∧ engineAbort (engineAbort active request_id) request_id
      = engineAbort active request_id
    ∧ (request_id ∉ active → engineAbort active request_id = active) := by
  refine ⟨?_, ?_, ?_, ?_, ?_⟩
  · cases s <;> rfl
  · intro h
    cases s with
    | completed => rfl
    | failed => rfl
    | cancelled => rfl
    | admitted => simp [SessionState.isTerminal] at h
    | consuming => simp [SessionState.isTerminal] at h
  · cases s <;> rfl
  · exact filter_self_idem _ active
  · induction active with
    | nil => intro h; rfl
    | cons a tl ih =>
      intro h
      have ha : (a == request_id) = false := by
        rw [beq_eq_false_iff_ne]
        intro heq
        exact h (heq ▸ List.mem_cons_self a tl)
      have htl := ih (fun hm => h (List.mem_cons_of_mem a hm))
      unfold engineAbort at htl ⊢
      simp [List.filter_cons, ha, htl]

/-- C9 witness: double cancellation, cancellation after natural completion,
and double engine abort, all evaluated concretely. -/
theorem C9_cancel_idempotent_w :
    cancelSession (cancelSession .admitted) = cancelSession .admitted
    ∧ cancelSession .completed = .completed
    ∧ engineAbort (engineAbort ["a", "b"] "a") "a" = engineAbort ["a", "b"] "a"
    ∧ engineAbort ["b"] "a" = ["b"] :=
  ⟨(C9_cancel_idempotent .admitted [] "z").1,
    (C9_cancel_idempotent .completed [] "z").2.1 rfl,
    (C9_cancel_idempotent .cancelled ["a", "b"] "a").2.2.2.1,
    (C9_cancel_idempotent .cancelled ["b"] "a").2.2.2.2 (by simp)⟩

/-- C10: the prompt prefixing every returned `text` entry is the one reported
by the engine's `RequestOutput` (in blocking mode, the final element's
`prompt` field), not the request body's `prompt`: two bodies differing only
in their `prompt` value yield the same response, and the payload is built
from the element's own prompt. -/
theorem C10_engine_reported_prompt
    (validate : SamplingKVs → Except Err SamplingKVs)
    (engineResults : List RequestOutput) (request_id : String) (dis : Nat → Bool)
    (bodyA bodyB : List (String × JsonVal)) (pvA pvB : JsonVal)
    (rest1 sampling_params : SamplingKVs) (last : RequestOutput)
    (hpA : popKey "prompt" bodyA = some (pvA, rest1))
    (hpB : popKey "prompt" bodyB = some (pvB, rest1))
    (hs : (parseStream rest1).1.truthy = false)
    (hv : validate (parseStream rest1).2 = .ok sampling_params)
    (hlast : engineResults.getLast? = some last)
    (hconn : ∀ i, i < engineResults.length → dis i = false) :
    (generate validate engineResults request_id dis bodyA).response
      = .ok (.json 200 (payloadJson last))
    ∧ (generate validate engineResults request_id dis bodyA).response
      = (generate validate engineResults request_id dis bodyB).response
    ∧ payloadJson last
      = .obj [("text",
          .arr ((last.outputs.map (fun o => last.prompt ++ o.text)).map .str))]
    ∧ (∀ ro : RequestOutput, textsOf ro = ro.outputs.map (fun o => ro.prompt ++ o.text)) := by
  have hne : engineResults ≠ [] := by
    intro h
    rw [h] at hlast
    simp at hlast
  have hloop : blockingLoop request_id dis engineResults 0 none
      = finishBlocking (some last) := by
    rw [blockingLoop_no_dis request_id dis engineResults 0 none
      (fun j hj => by simpa using hconn j hj)]
    rw [lastOr_eq_getLast? engineResults none hne, hlast]
  refine ⟨?_, ?_, rfl, fun ro => rfl⟩
  · rw [generate_blocking validate engineResults request_id dis bodyA pvA rest1
      sampling_params hpA hv hs, hloop]
    rfl
  · rw [generate_blocking validate engineResults request_id dis bodyA pvA rest1
      sampling_params hpA hv hs,
      generate_blocking validate engineResults request_id dis bodyB pvB rest1
      sampling_params hpB hv hs]

/-- C10 witness: the body says `prompt="A"` (or `"B"`), the engine reports
`prompt="ENG"`; the response is prefixed with `"ENG"` either way. -/
theorem C10_engine_reported_prompt_w :
    (generate (fun kvs => .ok kvs) [⟨"ENG", [⟨"!"⟩]⟩] "req-10" (fun _ => false)
        [("prompt", .str "A")]).response
      = .ok (.json 200 (payloadJson ⟨"ENG", [⟨"!"⟩]⟩))
    ∧ (generate (fun kvs => .ok kvs) [⟨"ENG", [⟨"!"⟩]⟩] "req-10" (fun _ => false)
        [("prompt", .str "A")]).response
      = (generate (fun kvs => .ok kvs) [⟨"ENG", [⟨"!"⟩]⟩] "req-10" (fun _ => false)
        [("prompt", .str "B")]).response := by
  obtain ⟨h1, h2, _, _⟩ := C10_engine_reported_prompt (fun kvs => .ok kvs)
    [⟨"ENG", [⟨"!"⟩]⟩] "req-10" (fun _ => false)
    [("prompt", .str "A")] [("prompt", .str "B")] (.str "A") (.str "B") [] []
    ⟨"ENG", [⟨"!"⟩]⟩ rfl rfl rfl rfl rfl (fun _ _ => rfl)
  exact ⟨h1, h2⟩

end ApiServer
